import Mathlib

/-!
Shallow embedding of the AI Business Assistant Generator backend
(`src/main.py`) and proofs about its generation rules.

Conventions of the embedding:
- Python dicts with a fixed key set become Lean structures; dict entries
  that are only present on some branches become `Option` fields.
- Python `Optional[str]` becomes `Option String`; Python truthiness of an
  optional string (`if data.website_url`, `x or y`) is modelled by
  `pyTruthyStr` (absent or empty string is falsy), and truthiness of a
  list by matching on `[]`.
- The unguarded `data.services[0]` access in `make_sales_ads` raises
  `IndexError` in Python when `services` is empty; the embedding returns
  `none` in exactly that case and `some` of the built section otherwise.
- `datetime.utcnow()` (the `created_at` field) is real time and is left
  out of the embedded result record.
-/

structure Contact where
  name : Option String
  email : Option String
  phone : Option String
deriving Repr, DecidableEq

structure BusinessInput where
  business_name : String
  industry : String
  services : List String
  location : String
  target_audience : String
  goals : List String
  tone : String
  brand_colors : List String
  brand_voice : Option String
  faqs : List (String × String)
  examples : List String
  subscription_tier : String
  website_url : Option String
  contact : Option Contact
deriving Repr, DecidableEq

/-- Python truthiness of an `Optional[str]`: `None` and `""` are falsy. -/
def pyTruthyStr : Option String → Bool
  | none => false
  | some s => !s.isEmpty

/-- Python `str.lower()` as used here (ASCII business data): lowercases
every character. -/
def pyLower (s : String) : String := ⟨s.data.map Char.toLower⟩

/-- Python `str.replace(" ", "")` as used here: drops every space. -/
def stripSpaces (s : String) : String := ⟨s.data.filter (fun c => c != ' ')⟩

/-- Python `", ".join(items)` as used by `sentence_list`. -/
def sentence_list (items : List String) : String :=
  String.intercalate ", " items

/-- The `order` dict of `tier_includes` (tier name → ordinal). -/
def tierOrder : List (String × Nat) :=
  [("starter", 0), ("standard", 1), ("premium", 2)]

/-- The `gates` dict of `tier_includes` (feature name → minimum tier ordinal). -/
def featureGates : List (String × Nat) :=
  [("basic", 0), ("website", 1), ("ads", 1), ("booking", 1),
   ("caller_bot", 2), ("crm", 2), ("full_builder", 2), ("voice_support", 2),
   ("analytics_full", 2), ("domain_hosting", 2)]

/-- `tier_includes(feature, tier)` from `src/main.py`:
`order.get(tier, 0) >= gates.get(feature, 0)`. -/
def tier_includes (feature : String) (tier : String) : Bool :=
  decide ((tierOrder.lookup tier).getD 0 ≥ (featureGates.lookup feature).getD 0)

/-- Spec-side tier ordinal, following the spec words: starter=0, standard=1,
premium=2, default 0 for an unknown tier. -/
def tierOrdinal (tier : String) : Nat :=
  if tier = "starter" then 0
  else if tier = "standard" then 1
  else if tier = "premium" then 2
  else 0

/-- Spec-side feature gate, following the spec words: each feature of the
gating table maps to its minimum ordinal, default 0 for an unknown feature. -/
def featureGate (feature : String) : Nat :=
  if feature = "basic" then 0
  else if feature = "website" then 1
  else if feature = "ads" then 1
  else if feature = "booking" then 1
  else if feature = "caller_bot" then 2
  else if feature = "crm" then 2
  else if feature = "full_builder" then 2
  else if feature = "voice_support" then 2
  else if feature = "analytics_full" then 2
  else if feature = "domain_hosting" then 2
  else 0

/-- `make_business_summary`; `sentence_list(data.goals) or "..."` uses Python
string truthiness, so the fallback fires when the joined goals are empty. -/
def make_business_summary (data : BusinessInput) : String :=
  data.business_name ++ " is a " ++ data.tone ++ " " ++ data.industry ++
    " brand based in " ++ data.location ++ ". " ++
  "They offer " ++ sentence_list data.services ++ " to " ++
    data.target_audience ++ ". " ++
  "Primary goals: " ++
    (if (sentence_list data.goals).isEmpty then
      "brand growth and customer satisfaction"
    else sentence_list data.goals) ++ "."

structure BrandIdentity where
  colors : List String
  typography : List String
  voice : String
  keywords : List String
  value_props : List String
deriving Repr, DecidableEq

/-- Python `a or b` on an optional string: `None` and `""` fall through. -/
def pyOrStr (a : Option String) (b : String) : String :=
  match a with
  | none => b
  | some s => if s.isEmpty then b else s

/-- `make_brand_identity` from `src/main.py`. -/
def make_brand_identity (data : BusinessInput) : BrandIdentity :=
  { colors := data.brand_colors,
    typography := ["Inter", "Manrope", "Geist"],
    voice := pyOrStr data.brand_voice
      (data.tone ++ ", clear, helpful, conversion-focused"),
    keywords := data.industry :: data.location :: data.services,
    value_props := ["Fast response times", "Clear pricing", "Expert support"] }

structure ChatKnowledge where
  business_description : String
  services : List String
  policies : List String
  goals : List String
  faqs : List (String × String)
  examples : List String
  rag_chunks : List (String × String)
  capabilities : List String
deriving Repr, DecidableEq

structure ResponseStyle where
  format : String
  voice : String
  cta : String
deriving Repr, DecidableEq

structure ChatButton where
  label : String
  action : String
deriving Repr, DecidableEq

structure ChatOutputs where
  greeting : String
  lead_form_fields : List String
  behavior_rules : List String
  response_style : ResponseStyle
  conversation_structure : List String
  quick_actions : List String
  buttons : List ChatButton
deriving Repr, DecidableEq

structure ChatbotPersona where
  system_prompt : String
  knowledge : ChatKnowledge
  outputs : ChatOutputs
deriving Repr, DecidableEq

/-- `make_chatbot_persona` from `src/main.py`; each `rag_chunks` dict becomes a
(type, content) pair. -/
def make_chatbot_persona (data : BusinessInput) : ChatbotPersona :=
  { system_prompt :=
      "You are " ++ data.business_name ++ "\x27s AI assistant. Tone: " ++
        data.tone ++ ". " ++ "Industry: " ++ data.industry ++
        ". Target audience: " ++ data.target_audience ++ ".",
    knowledge :=
      { business_description := make_business_summary data,
        services := data.services,
        policies := ["Be polite", "Never promise unavailable offers",
          "Escalate complex issues"],
        goals := data.goals,
        faqs := data.faqs,
        examples := data.examples,
        rag_chunks :=
          [("services", sentence_list data.services),
           ("policies", String.intercalate "; "
             ["Response within 5 minutes", "Refunds per policy",
              "Escalation to human on request"]),
           ("about", "Operating in " ++ data.location ++ ". Audience: " ++
              data.target_audience ++ ".")],
        capabilities := ["Customer service", "Sales qualification",
          "Lead capture", "FAQ handling", "Product explanation",
          "Content generation", "Appointment scheduling", "CRM entry"] },
    outputs :=
      { greeting := "Hi! You\x27re speaking with the " ++ data.business_name ++
          " AI assistant — how can I help today?",
        lead_form_fields := ["name", "email", "phone", "need"],
        behavior_rules := ["Mirror brand tone and stay concise",
          "Always propose next step (book, call, order, contact)",
          "Ask one clarifying question before giving long answers",
          "Offer links and quick actions when relevant"],
        response_style :=
          { format := "short paragraphs with bullet highlights",
            voice := pyOrStr data.brand_voice data.tone,
            cta := "Use strong, specific CTAs" },
        conversation_structure := ["Greet → clarify need",
          "Match intent → provide answer", "Offer next step with buttons",
          "Confirm satisfaction or escalate"],
        quick_actions := ["Book", "Get quote", "Talk to human", "See pricing",
          "Contact"],
        buttons := [⟨"Book", "open_booking"⟩, ⟨"Order", "open_checkout"⟩,
          ⟨"Contact", "open_contact"⟩] } }

structure Page where
  path : String
  title : String
  items : Option (List String)
deriving Repr, DecidableEq

structure SeoBlock where
  title : String
  description : String
  keywords : List String
deriving Repr, DecidableEq

structure SiteTheme where
  colors : List String
  tone : String
deriving Repr, DecidableEq

structure SiteIntegrations where
  chat_widget : Bool
  booking : Bool
deriving Repr, DecidableEq

structure WebsiteStructure where
  pages : List Page
  seo : SeoBlock
  theme : SiteTheme
  integrations : Option SiteIntegrations
deriving Repr, DecidableEq

/-- `make_website_structure` from `src/main.py`. -/
def make_website_structure (data : BusinessInput) (tier : String) :
    WebsiteStructure :=
  { pages :=
      [⟨"/", "Home", none⟩, ⟨"/about", "About", none⟩,
       ⟨"/services", "Services", some data.services⟩,
       ⟨"/pricing", "Pricing", none⟩, ⟨"/contact", "Contact", none⟩],
    seo :=
      { title := data.business_name ++ " | " ++ data.industry ++ " in " ++
          data.location,
        description := data.business_name ++ " offers " ++
          sentence_list data.services ++ " in " ++ data.location ++ ".",
        keywords := data.business_name :: data.industry :: data.location ::
          data.services },
    theme := ⟨data.brand_colors, data.tone⟩,
    integrations :=
      if tier_includes "website" tier then some ⟨true, true⟩ else none }

structure CalendarEntry where
  day : Nat
  theme : String
deriving Repr, DecidableEq

structure SocialPlan where
  calendar_30_day : List CalendarEntry
  captions_style : String
  hashtags : List String
  ad_angles : Option (List String)
  platforms : List String
deriving Repr, DecidableEq

/-- The 7-theme list of `make_social_plan`. -/
def socialThemes : List String :=
  ["Brand story", "How it works", "Customer testimonial", "Service spotlight",
   "Behind the scenes", "FAQ of the week", "Offer/CTA"]

/-- `make_social_plan` from `src/main.py`: the calendar enumerates the 7-theme
list repeated 4 times (Python `[...] * 4`) and is sliced with `[:30]`. -/
def make_social_plan (data : BusinessInput) (tier : String) : SocialPlan :=
  let base_calendar : List CalendarEntry :=
    (((socialThemes ++ socialThemes ++ socialThemes ++ socialThemes).enum.map
      (fun p => ⟨p.1 + 1, p.2⟩)).take 30)
  { calendar_30_day := base_calendar,
    captions_style := data.tone ++ " with clear CTAs",
    hashtags := ["#" ++ stripSpaces data.industry,
      "#" ++ stripSpaces data.location, "#SmallBusiness", "#Tips"],
    ad_angles :=
      if tier_includes "ads" tier then
        some ["Pain-Agitate-Solve for top problem",
          "Time-saving benefit angle", "Local authority angle"]
      else none,
    platforms :=
      if tier_includes "ads" tier then
        ["Instagram", "Facebook", "Google", "TikTok"]
      else ["Instagram", "Facebook"] }

structure BookingTools where
  booking_link : String
  reminders : List String
  confirmation_email : String
  calendar_sync : Bool
deriving Repr, DecidableEq

/-- `make_booking_tools` from `src/main.py`; the one-key
`confirmation_messages` dict becomes the `confirmation_email` field. -/
def make_booking_tools (data : BusinessInput) (tier : String) : BookingTools :=
  let base : BookingTools :=
    { booking_link :=
        "https://book." ++ stripSpaces (pyLower data.business_name) ++ ".ai",
      reminders := ["email"],
      confirmation_email := "Thanks for booking with us!",
      calendar_sync := false }
  if tier_includes "booking" tier then
    { base with reminders := ["email", "sms", "whatsapp"], calendar_sync := true }
  else base

structure Funnel where
  name : String
  stages : List String
deriving Repr, DecidableEq

structure AdIdea where
  platform : String
  headline : String
  copy : String
deriving Repr, DecidableEq

structure SalesAds where
  funnels : List Funnel
  ad_ideas : List AdIdea
  generators : Option (List String)
deriving Repr, DecidableEq

/-- `make_sales_ads` from `src/main.py`. The headline and copy interpolate
`data.services[0]` with no guard; when `services` is empty Python raises
`IndexError`, which the embedding renders as `none`. -/
def make_sales_ads (data : BusinessInput) (tier : String) : Option SalesAds :=
  match data.services with
  | [] => none
  | s0 :: _ =>
    some
      { funnels :=
          [⟨"Lead magnet → Nurture → Consult",
            ["Offer", "Capture", "Email nurture", "Consult call"]⟩],
        ad_ideas :=
          [{ platform := "Facebook",
             headline := data.business_name ++ ": " ++ s0 ++ " in " ++
               data.location,
             copy := "Tired of guessing? Try our " ++ s0 ++
               " — trusted by locals." }],
        generators :=
          if tier_includes "ads" tier then
            some ["FB/IG primary text", "Google RSA headlines", "TikTok hooks"]
          else none }

/-- `make_sops` from `src/main.py`. -/
def make_sops (data : BusinessInput) (tier : String) : List String :=
  ["Inbound chat triage and escalation", "Lead capture and CRM entry",
   "Daily social posting routine"]
  ++ (if tier_includes "website" tier then
        ["Appointment scheduling and no-show follow-up"] else [])
  ++ (if tier_includes "caller_bot" tier then
        ["Automated call reminders and voicemail drop"] else [])

structure Workflow where
  name : String
  trigger : String
  actions : List String
deriving Repr, DecidableEq

structure AutomationsSection where
  workflows : List Workflow
  triggers : List String
  actions : List String
  integrations : List String
deriving Repr, DecidableEq

/-- `make_automations` from `src/main.py`. -/
def make_automations (data : BusinessInput) (tier : String) :
    AutomationsSection :=
  { workflows :=
      [⟨"Lead capture → follow up → booking", "New lead",
        ["Send welcome email", "Create CRM contact", "Offer booking link"]⟩,
       ⟨"New customer → onboarding", "First purchase",
        ["Send onboarding guide", "Invite to portal"]⟩],
    triggers := ["New website chat", "Form submission", "New booking"],
    actions := ["Send confirmation email", "Create CRM contact",
      "Notify team Slack"],
    integrations :=
      if tier_includes "crm" tier then
        ["CRM", "WhatsApp", "Facebook", "Instagram", "Calendar"]
      else ["Email", "Calendar"] }

structure DashboardRole where
  name : String
  status : String
deriving Repr, DecidableEq

structure DashboardAnalytics where
  level : String
  widgets : List String
deriving Repr, DecidableEq

structure Dashboard where
  roles : List DashboardRole
  analytics : DashboardAnalytics
deriving Repr, DecidableEq

/-- `make_dashboard` from `src/main.py`. -/
def make_dashboard (data : BusinessInput) (tier : String) : Dashboard :=
  let roles : List DashboardRole :=
    [⟨"AI Receptionist", "ready"⟩, ⟨"AI Support Agent", "ready"⟩,
     ⟨"AI Content Creator", "ready"⟩]
    ++ (if tier_includes "ads" tier then
          [⟨"AI Ad Expert", "ready"⟩, ⟨"AI Social Media Manager", "ready"⟩]
        else [])
    ++ (if tier_includes "voice_support" tier then
          [⟨"AI Sales Agent", "ready"⟩,
           ⟨"AI Booking & Scheduling Assistant", "ready"⟩,
           ⟨"AI Financial Assistant", "ready"⟩,
           ⟨"24/7 Multi-platform Assistant", "ready"⟩]
        else [])
  { roles := roles,
    analytics :=
      { level := if tier_includes "analytics_full" tier then "full" else "basic",
        widgets :=
          if tier_includes "analytics_full" tier then
            ["Leads", "Bookings", "Messages", "Traffic", "Revenue"]
          else ["Leads", "Bookings", "Messages"] } }

structure SocialOauth where
  prompt : String
  providers : List String
  status : List (String × String)
deriving Repr, DecidableEq

/-- `make_social_oauth` from `src/main.py`; the status dict becomes
(provider-lowercase, state) pairs in provider order. -/
def make_social_oauth (data : BusinessInput) : SocialOauth :=
  { prompt := "Connect your existing social accounts. We won\x27t create new ones.",
    providers := ["Facebook", "Instagram", "TikTok", "YouTube", "LinkedIn",
      "Twitter"],
    status := ["Facebook", "Instagram", "TikTok", "YouTube", "LinkedIn",
      "Twitter"].map (fun p => (pyLower p, "disconnected")) }

structure AskFor where
  domain : Option String
  hosting_provider : String
  cms : String
  access_method : String
deriving Repr, DecidableEq

structure DeploymentFlags where
  hosting_setup : Bool
  domain_purchase : Bool
  automatic_deployment : Bool
deriving Repr, DecidableEq

structure WebsiteActions where
  mode : String
  ask_for : Option AskFor
  generate : List String
  deployment : Option DeploymentFlags
deriving Repr, DecidableEq

/-- `make_website_actions` from `src/main.py`; `has_site = bool(data.website_url)`
is Python truthiness of the optional string. -/
def make_website_actions (data : BusinessInput) (tier : String) :
    WebsiteActions :=
  if pyTruthyStr data.website_url then
    { mode := "integrate",
      ask_for := some
        { domain := data.website_url,
          hosting_provider := "(user input)",
          cms := "(WordPress, Wix, custom, etc.)",
          access_method := "(API, admin login, CPanel, FTP)" },
      generate := ["Updated pages", "SEO improvements", "Booking widget",
        "Chat widget", "Analytics integration", "New service pages",
        "Blog content"],
      deployment := none }
  else
    { mode := "create",
      ask_for := none,
      generate := ["Full modern website",
        "Home/Services/About/Contact/Pricing pages", "Booking system",
        "Chatbot widget", "SEO metadata", "Branding style based on colors"],
      deployment := some
        { hosting_setup := tier_includes "domain_hosting" tier,
          domain_purchase := tier_includes "domain_hosting" tier,
          automatic_deployment := tier_includes "domain_hosting" tier } }

structure CallerBot where
  provision_number : Bool
  ivr_menu : List String
  voice_to_text : Bool
  flows : List String
  post_call_sms : Bool
  forward_to_owner : Bool
deriving Repr, DecidableEq

/-- `make_caller_bot` from `src/main.py`: `None` unless the `caller_bot`
feature is gated on. -/
def make_caller_bot (data : BusinessInput) (tier : String) : Option CallerBot :=
  if !tier_includes "caller_bot" tier then none
  else
    some
      { provision_number := true,
        ivr_menu := ["Press 1 for sales", "Press 2 for support",
          "Press 3 for hours"],
        voice_to_text := true,
        flows := ["Inbound → intent detect → book → SMS confirmation",
          "Inbound → order capture → payment link → notify owner"],
        post_call_sms := true,
        forward_to_owner := true }

structure MultiPlatform where
  channels : List String
  consistency : String
deriving Repr, DecidableEq

/-- `make_multi_platform` from `src/main.py`. -/
def make_multi_platform (data : BusinessInput) (tier : String) :
    MultiPlatform :=
  { channels :=
      ["Website", "Email"]
      ++ (if tier_includes "booking" tier then
            ["WhatsApp", "Instagram DMs", "Facebook Messenger"] else [])
      ++ (if tier_includes "caller_bot" tier then ["Phone calls"] else [])
      ++ ["In-app chat"],
    consistency := "Single persona and knowledge base shared across channels" }

structure PlanInfo where
  includes : List String
  locked : List String
deriving Repr, DecidableEq

structure SubscriptionsSection where
  current : String
  starter : PlanInfo
  standard : PlanInfo
  premium : PlanInfo
deriving Repr, DecidableEq

/-- `make_subscriptions` from `src/main.py`. -/
def make_subscriptions (tier : String) : SubscriptionsSection :=
  { current := tier,
    starter :=
      { includes := ["Social media posting", "Basic chatbot", "Basic analytics"],
        locked := ["Website integration", "Booking system",
          "Multi-platform chat", "Advanced analytics", "Email/SMS automations",
          "Domain + hosting", "Caller bot", "CRM", "AI-generated ads",
          "Unlimited automations"] },
    standard :=
      { includes := ["Everything in Starter", "Website integration",
          "Booking system", "Multi-platform chat", "Advanced analytics",
          "Email/SMS automations"],
        locked := ["Domain + hosting", "Full website builder", "Caller bot",
          "CRM", "AI-generated ads", "Unlimited automations"] },
    premium :=
      { includes := ["Everything in Standard", "Domain + hosting included",
          "Full website builder", "Caller bot", "CRM", "AI-generated ads",
          "Unlimited automations", "Full digital workforce suite"],
        locked := [] } }

structure Cadence where
  email : String
  social : String
  ads : String
deriving Repr, DecidableEq

structure MarketingPlan where
  strategy : List String
  channels : List String
  cadence : Cadence
deriving Repr, DecidableEq

/-- `make_marketing_plan` from `src/main.py`. -/
def make_marketing_plan (data : BusinessInput) (tier : String) :
    MarketingPlan :=
  { strategy := ["Define ICP and pain points",
      "Create content pillars (education, proof, offer)",
      "Run weekly offer tests"],
    channels := ["Website", "Email", "Social"]
      ++ (if tier_includes "ads" tier then ["Ads"] else []),
    cadence :=
      { email := "1 newsletter + 1 promotion/week",
        social := "5 posts/week",
        ads := if tier_includes "ads" tier then "2-3 creatives/week"
          else "N/A" } }

/-- `make_seo_keywords` from `src/main.py`; the second keyword is the Python
conditional expression guarding `services[0]` (falls back to `industry` when
`services` is falsy, i.e. empty), then one keyword per service is appended. -/
def make_seo_keywords (data : BusinessInput) : List String :=
  [data.industry ++ " " ++ data.location,
   (match data.services with
    | s0 :: _ => "best " ++ s0 ++ " " ++ data.location
    | [] => data.industry),
   data.business_name ++ " reviews",
   data.industry ++ " pricing " ++ data.location]
  ++ data.services.map (fun svc => svc ++ " " ++ data.location)

structure AccessLinks where
  website : Option String
  booking : String
  admin_portal : String
  chat_widget : Option String
deriving Repr, DecidableEq

/-- `make_access_links` from `src/main.py`; `data.website_url or (...)` and
`if data.website_url or tier_includes(...)` use Python string truthiness. -/
def make_access_links (data : BusinessInput) (tier : String) : AccessLinks :=
  let domain_root := stripSpaces (pyLower data.business_name)
  { website :=
      if pyTruthyStr data.website_url then data.website_url
      else if tier_includes "domain_hosting" tier then
        some ("https://" ++ domain_root ++ ".site")
      else none,
    booking := "https://book." ++ domain_root ++ ".ai",
    admin_portal := "https://admin." ++ domain_root ++ ".ai",
    chat_widget :=
      if pyTruthyStr data.website_url || tier_includes "domain_hosting" tier then
        some ("https://" ++ domain_root ++ ".site/chat")
      else none }

/-- The embedded `GenerationResult` record (without the real-time
`created_at` field). -/
structure GenerationResult where
  business_summary : String
  brand_identity : BrandIdentity
  chatbot_persona : ChatbotPersona
  website_structure : WebsiteStructure
  social_media_plan : SocialPlan
  booking_tools : BookingTools
  sales_and_ads : SalesAds
  sops : List String
  automations : AutomationsSection
  dashboard : Dashboard
  social_oauth : SocialOauth
  website_actions : WebsiteActions
  caller_bot : Option CallerBot
  multi_platform : MultiPlatform
  subscriptions : SubscriptionsSection
  marketing_plan : MarketingPlan
  seo_keywords : List String
  user_access_links : AccessLinks
  subscription_tier : String
deriving Repr, DecidableEq

/-- Outcome of one `POST /generate` request.
`clientError` models `HTTPException` (raised before any section generation
and before any store write, so it carries neither a result nor writes);
`serverError` models an uncaught Python exception during section generation
(the `IndexError` of `make_sales_ads`); `ok` carries the response body and
the collection names of the two best-effort archival writes attempted. -/
inductive GenOutcome where
  | clientError (status : Nat) (detail : String)
  | serverError
  | ok (result : GenerationResult) (writes : List String)
deriving Repr, DecidableEq

/-- The `GenerationResult(...)` constructor call of `generate_assistant`,
with the already-built sales/ads section passed in. -/
def build_result (data : BusinessInput) (tier : String) (ads : SalesAds) :
    GenerationResult :=
  { business_summary := make_business_summary data,
          brand_identity := make_brand_identity data,
          chatbot_persona := make_chatbot_persona data,
          website_structure := make_website_structure data tier,
          social_media_plan := make_social_plan data tier,
          booking_tools := make_booking_tools data tier,
          sales_and_ads := ads,
          sops := make_sops data tier,
          automations := make_automations data tier,
          dashboard := make_dashboard data tier,
          social_oauth := make_social_oauth data,
          website_actions := make_website_actions data tier,
          caller_bot := make_caller_bot data tier,
          multi_platform := make_multi_platform data tier,
          subscriptions := make_subscriptions tier,
          marketing_plan := make_marketing_plan data tier,
          seo_keywords := make_seo_keywords data,
          user_access_links := make_access_links data tier,
          subscription_tier := tier }

/-- `generate_assistant` (`POST /generate`) from `src/main.py`: lowercases
the tier, rejects with a 400 before generating anything when it is not one
of starter/standard/premium, otherwise builds every section and attempts
the two archival writes. -/
def generate_assistant (data : BusinessInput) : GenOutcome :=
  let tier := pyLower data.subscription_tier
  if tier ∈ (["starter", "standard", "premium"] : List String) then
    match make_sales_ads data tier with
    | none => GenOutcome.serverError
    | some ads =>
      GenOutcome.ok (build_result data tier ads)
        ["businessinput", "generationresult"]
  else
    GenOutcome.clientError 400
      "subscription_tier must be one of: starter, standard, premium"

/-- A concrete business input used by the witnesses, parametrized by the
fields the claims vary: services, tier and website URL. -/
def sampleInput (services : List String) (tier : String)
    (url : Option String) : BusinessInput :=
  { business_name := "Acme Plumbing",
    industry := "plumbing",
    services := services,
    location := "Austin",
    target_audience := "homeowners",
    goals := ["grow bookings"],
    tone := "professional",
    brand_colors := ["#6d28d9", "#0ea5e9"],
    brand_voice := none,
    faqs := [],
    examples := [],
    subscription_tier := tier,
    website_url := url,
    contact := none }

def sampleNoServices : BusinessInput := sampleInput [] "standard" none

def sampleStarter : BusinessInput := sampleInput ["drain cleaning"] "starter" none

def samplePremium : BusinessInput := sampleInput ["drain cleaning"] "premium" none

def sampleBogus : BusinessInput := sampleInput ["drain cleaning"] "bogus" none

def sampleWithSite : BusinessInput :=
  sampleInput ["drain cleaning"] "starter" (some "https://legacy.example.com")

/-- The result `POST /generate` produces for `sampleStarter`. -/
def sampleStarterResult : GenerationResult :=
  build_result sampleStarter "starter"
    ((make_sales_ads sampleStarter "starter").getD ⟨[], [], none⟩)

/-- The result `POST /generate` produces for `samplePremium`. -/
def samplePremiumResult : GenerationResult :=
  build_result samplePremium "premium"
    ((make_sales_ads samplePremium "premium").getD ⟨[], [], none⟩)

theorem lookup_cons_if (a k : String) (v : Nat) (l : List (String × Nat)) :
    List.lookup a ((k, v) :: l) = if a = k then some v else List.lookup a l := by
  rcases hb : a == k with _ | _
  · have h : a ≠ k := by simpa [beq_eq_false_iff_ne] using hb
    simp [List.lookup, hb, h]
  · have h : a = k := by simpa [beq_iff_eq] using hb
    simp [List.lookup, hb, h]

theorem tierOrder_lookup_eq (tier : String) :
    (tierOrder.lookup tier).getD 0 = tierOrdinal tier := by
  simp only [tierOrder, tierOrdinal, lookup_cons_if, List.lookup_nil]
  split_ifs <;> rfl

set_option maxHeartbeats 1600000 in
theorem featureGates_lookup_eq (feature : String) :
    (featureGates.lookup feature).getD 0 = featureGate feature := by
  simp only [featureGates, featureGate, lookup_cons_if, List.lookup_nil]
  split_ifs <;> rfl

theorem tier_includes_spec (feature tier : String) :
    tier_includes feature tier = decide (tierOrdinal tier ≥ featureGate feature) := by
  simp [tier_includes, tierOrder_lookup_eq, featureGates_lookup_eq]

/-- C1: For every input and tier, the social calendar has 28 (not 30)
entries: the 7-theme list is repeated only 4 times before the `[:30]`
slice, so the slice never truncates. Entry `i` (0-based) carries day
`i + 1` and the theme at index `(day - 1) mod 7 = i mod 7` of the 7-theme
list, as the claim states, but only for the 28 days that exist. -/
theorem social_calendar_28_entries (data : BusinessInput) (tier : String) :
    (make_social_plan data tier).calendar_30_day.length = 28 ∧
    (make_social_plan data tier).calendar_30_day =
      (List.range 28).map (fun i => ⟨i + 1, socialThemes.getD (i % 7) ""⟩) := by
  refine ⟨rfl, ?_⟩
  have h : (make_social_plan data tier).calendar_30_day =
      ((socialThemes ++ socialThemes ++ socialThemes ++ socialThemes).enum.map
        (fun p => (⟨p.1 + 1, p.2⟩ : CalendarEntry))).take 30 := rfl
  rw [h]
  decide

/-- C2: `make_sales_ads` interpolates `data.services[0]` into the ad
headline and copy with no guard, so it fails (the `IndexError` branch,
embedded as `none`) on every input whose services list is empty,
whatever the tier. -/
theorem sales_ads_empty_services_fails (data : BusinessInput) (tier : String)
    (h : data.services = []) : make_sales_ads data tier = none := by
  simp [make_sales_ads, h]

theorem sales_ads_empty_services_fails_witness :
    sampleNoServices.services = [] ∧
      make_sales_ads sampleNoServices "standard" = none :=
  ⟨rfl, sales_ads_empty_services_fails sampleNoServices "standard" rfl⟩

/-- C3: when the lowercased tier is not one of starter/standard/premium,
`POST /generate` answers a 400 client error with the fixed message; the
`clientError` outcome is produced before any section generation and
carries no store writes. -/
theorem generate_rejects_invalid_tier (data : BusinessInput)
    (h : pyLower data.subscription_tier ∉
      (["starter", "standard", "premium"] : List String)) :
    generate_assistant data = GenOutcome.clientError 400
      "subscription_tier must be one of: starter, standard, premium" := by
  simp [generate_assistant, h]

theorem generate_rejects_invalid_tier_witness :
    pyLower sampleBogus.subscription_tier ∉
      (["starter", "standard", "premium"] : List String) ∧
    generate_assistant sampleBogus = GenOutcome.clientError 400
      "subscription_tier must be one of: starter, standard, premium" :=
  ⟨by decide, generate_rejects_invalid_tier sampleBogus (by decide)⟩

/-- C4: `tier_includes` is monotone in the tier: for valid tiers A and B
with ordinal(A) ≥ ordinal(B), every feature enabled at B is enabled at A. -/
theorem tier_includes_monotone (feature A B : String)
    (hA : A ∈ (["starter", "standard", "premium"] : List String))
    (hB : B ∈ (["starter", "standard", "premium"] : List String))
    (hord : tierOrdinal B ≤ tierOrdinal A)
    (hincl : tier_includes feature B = true) :
    tier_includes feature A = true := by
  rw [tier_includes_spec] at hincl ⊢
  simp only [ge_iff_le, decide_eq_true_eq] at hincl ⊢
  exact le_trans hincl hord

theorem tier_includes_monotone_witness :
    ("premium" ∈ (["starter", "standard", "premium"] : List String) ∧
     "standard" ∈ (["starter", "standard", "premium"] : List String) ∧
     tierOrdinal "standard" ≤ tierOrdinal "premium" ∧
     tier_includes "ads" "standard" = true) ∧
    tier_includes "ads" "premium" = true :=
  ⟨⟨by decide, by decide, by decide, by decide⟩,
    tier_includes_monotone "ads" "premium" "standard" (by decide) (by decide)
      (by decide) (by decide)⟩

/-- C5: for every feature string and tier string, `tier_includes` equals
the comparison ordinal(tier) ≥ gate(feature), with ordinal defaulting to 0
on unknown tiers and gate defaulting to 0 on unknown features; the
function is total, so unknown tiers behave as starter. -/
theorem tier_includes_eq_ordinal_ge_gate (feature tier : String) :
    tier_includes feature tier =
      decide (tierOrdinal tier ≥ featureGate feature) :=
  tier_includes_spec feature tier

/-- C6: every successful generation for an input whose resolved tier is
"starter" has exactly 3 dashboard roles, booking reminders ["email"],
social platforms ["Instagram", "Facebook"] and no caller-bot section. -/
theorem starter_result_shape (data : BusinessInput) (r : GenerationResult)
    (w : List String) (htier : pyLower data.subscription_tier = "starter")
    (hok : generate_assistant data = GenOutcome.ok r w) :
    r.dashboard.roles.length = 3 ∧
    r.booking_tools.reminders = ["email"] ∧
    r.social_media_plan.platforms = ["Instagram", "Facebook"] ∧
    r.caller_bot = none := by
  unfold generate_assistant at hok
  rw [htier] at hok
  rcases hs : data.services with _ | ⟨s0, rest⟩ <;>
    simp [make_sales_ads, hs] at hok
  obtain ⟨hr, hw⟩ := hok
  subst hr
  exact ⟨rfl, rfl, rfl, rfl⟩

theorem starter_result_shape_witness :
    (pyLower sampleStarter.subscription_tier = "starter" ∧
     generate_assistant sampleStarter =
       GenOutcome.ok sampleStarterResult ["businessinput", "generationresult"]) ∧
    (sampleStarterResult.dashboard.roles.length = 3 ∧
     sampleStarterResult.booking_tools.reminders = ["email"] ∧
     sampleStarterResult.social_media_plan.platforms = ["Instagram", "Facebook"] ∧
     sampleStarterResult.caller_bot = none) :=
  ⟨⟨rfl, rfl⟩,
    starter_result_shape sampleStarter sampleStarterResult
      ["businessinput", "generationresult"] rfl rfl⟩

/-- C7: every successful generation for an input whose resolved tier is
"premium" has exactly 9 dashboard roles (3 base + 2 ads + 4 voice),
booking reminders ["email", "sms", "whatsapp"] with calendar sync on, and
a present caller-bot section with `provision_number = true`. -/
theorem premium_result_shape (data : BusinessInput) (r : GenerationResult)
    (w : List String) (htier : pyLower data.subscription_tier = "premium")
    (hok : generate_assistant data = GenOutcome.ok r w) :
    r.dashboard.roles.length = 9 ∧
    r.booking_tools.reminders = ["email", "sms", "whatsapp"] ∧
    r.booking_tools.calendar_sync = true ∧
    r.caller_bot.map (fun cb => cb.provision_number) = some true := by
  unfold generate_assistant at hok
  rw [htier] at hok
  rcases hs : data.services with _ | ⟨s0, rest⟩ <;>
    simp [make_sales_ads, hs] at hok
  obtain ⟨hr, hw⟩ := hok
  subst hr
  exact ⟨rfl, rfl, rfl, rfl⟩

theorem premium_result_shape_witness :
    (pyLower samplePremium.subscription_tier = "premium" ∧
     generate_assistant samplePremium =
       GenOutcome.ok samplePremiumResult ["businessinput", "generationresult"]) ∧
    (samplePremiumResult.dashboard.roles.length = 9 ∧
     samplePremiumResult.booking_tools.reminders = ["email", "sms", "whatsapp"] ∧
     samplePremiumResult.booking_tools.calendar_sync = true ∧
     samplePremiumResult.caller_bot.map (fun cb => cb.provision_number) =
       some true) :=
  ⟨⟨rfl, rfl⟩,
    premium_result_shape samplePremium samplePremiumResult
      ["businessinput", "generationresult"] rfl rfl⟩

/-- C8: with a non-empty services list, the SEO keyword list has length
4 + number of services, and its first four entries follow the fixed
templates (with `services[0]` as `headD`). -/
theorem seo_keywords_shape (data : BusinessInput) (h : data.services ≠ []) :
    (make_seo_keywords data).length = 4 + data.services.length ∧
    (make_seo_keywords data).take 4 =
      [data.industry ++ " " ++ data.location,
       "best " ++ data.services.headD "" ++ " " ++ data.location,
       data.business_name ++ " reviews",
       data.industry ++ " pricing " ++ data.location] := by
  rcases hs : data.services with _ | ⟨s0, rest⟩
  · exact absurd hs h
  · constructor
    · simp [make_seo_keywords, hs]
      omega
    · simp [make_seo_keywords, hs]

theorem seo_keywords_shape_witness :
    sampleStarter.services ≠ [] ∧
    ((make_seo_keywords sampleStarter).length =
        4 + sampleStarter.services.length ∧
     (make_seo_keywords sampleStarter).take 4 =
       [sampleStarter.industry ++ " " ++ sampleStarter.location,
        "best " ++ sampleStarter.services.headD "" ++ " " ++
          sampleStarter.location,
        sampleStarter.business_name ++ " reviews",
        sampleStarter.industry ++ " pricing " ++ sampleStarter.location]) :=
  ⟨by decide, seo_keywords_shape sampleStarter (by decide)⟩

/-- C9 counterexample: at a concrete input with an empty services list,
`make_seo_keywords` does not fail with an out-of-range access — it
returns a 4-entry keyword list, with the industry string in place of the
"best services[0] location" template. -/
theorem seo_keywords_no_failure_on_empty :
    make_seo_keywords sampleNoServices =
      ["plumbing Austin", "plumbing", "Acme Plumbing reviews",
       "plumbing pricing Austin"] := by decide

/-- C9 (amended): `make_seo_keywords` guards its `services[0]` access with
a conditional expression, so on every input with empty services it returns
the 4-entry keyword list whose second entry falls back to the industry
string; it never hits an out-of-range access. -/
theorem seo_keywords_empty_services_fallback (data : BusinessInput)
    (h : data.services = []) :
    make_seo_keywords data =
      [data.industry ++ " " ++ data.location, data.industry,
       data.business_name ++ " reviews",
       data.industry ++ " pricing " ++ data.location] := by
  simp [make_seo_keywords, h]

theorem seo_keywords_empty_services_fallback_witness :
    sampleNoServices.services = [] ∧
    make_seo_keywords sampleNoServices =
      [sampleNoServices.industry ++ " " ++ sampleNoServices.location,
       sampleNoServices.industry,
       sampleNoServices.business_name ++ " reviews",
       sampleNoServices.industry ++ " pricing " ++ sampleNoServices.location] :=
  ⟨rfl, seo_keywords_empty_services_fallback sampleNoServices rfl⟩

/-- C10: whenever the access-links chat_widget entry is present, its value
is exactly "https://" ++ lowercased space-stripped business name ++
".site/chat"; the caller-provided website_url is never interpolated into
it, even when its presence is what made the entry non-null. -/
theorem chat_widget_link_ignores_url (data : BusinessInput) (tier : String)
    (h : (make_access_links data tier).chat_widget ≠ none) :
    (make_access_links data tier).chat_widget =
      some ("https://" ++ stripSpaces (pyLower data.business_name) ++
        ".site/chat") := by
  by_cases hc :
      (pyTruthyStr data.website_url || tier_includes "domain_hosting" tier) = true
  · simp [make_access_links, hc]
  · rw [Bool.not_eq_true] at hc
    simp [make_access_links, hc] at h

theorem chat_widget_link_ignores_url_witness :
    (make_access_links sampleWithSite "starter").chat_widget ≠ none ∧
    (make_access_links sampleWithSite "starter").chat_widget =
      some ("https://" ++ stripSpaces (pyLower sampleWithSite.business_name) ++
        ".site/chat") :=
  ⟨by decide, chat_widget_link_ignores_url sampleWithSite "starter" (by decide)⟩
